import Mathlib

/-
Verification development for the pythonning repository
(src/python/pythonning), centered on the copy-with-cache subsystem:

* `filesystem/_copying.py` : `_copyfileobj`, `_copyfileobj_readinto`,
  `_copyfile`, `_hash_file`, `copyfile`
* `caching.py`             : `FilesCache.cache_file`, `FilesCache.get_file_cache`,
  `FilesCache.clear`
* `web/download.py`        : `download_file`
* `filesystem/_removing.py`: `rmtree`

The Python functions are embedded as pure Lean functions.  File sizes and
byte counts are `Nat`; byte strings are `List Nat`; the sha256 hex digest
(`hashlib.sha256(...).hexdigest()`) is kept abstract as a `String → String`
parameter called `hashStr` (theorems quantify over it; closed statements
instantiate it with an explicit stand-in).
-/

/-- Python exceptions that the modelled code can raise. -/
inductive PyErr where
  | typeError (msg : String)
  | fileExistsError (msg : String)
  | permissionError
  | notADirectoryError
  | fileNotFoundError
  | runtimeError (msg : String)
deriving DecidableEq, Repr

/-- Result of a modelled Python call: normal return of a path, or a raised
exception. -/
inductive PyResult where
  | done (target : String)
  | raised (e : PyErr)
deriving DecidableEq, Repr

/-- `true` iff the result is a raised exception. -/
def PyResult.isRaised : PyResult → Bool
  | .raised _ => true
  | .done _ => false

/-- `true` iff the result is a raised `FileExistsError`. -/
def PyResult.isFileExistsRaised : PyResult → Bool
  | .raised (.fileExistsError _) => true
  | _ => false

/-!
## The chunked copy loop (`_copyfileobj` / `_copyfileobj_readinto`)

`_copyfileobj` (filesystem/_copying.py, lines 93-124):

    progress = 0
    while True:
        buf = fsrc_read(length)
        if not buf:
            break
        fdst_write(buf)
        progress += len(buf)
        callback(progress, length)

Reading a file with `remaining` bytes left through `read(length)` returns
`min length remaining` bytes (and an empty buffer stops the loop; a `read(0)`
also returns an empty buffer).  `_copyfileobj_readinto` (lines 53-90) performs
the same reads through `readinto` on a buffer of size `length` and drives the
identical `progress`/`callback` sequence, so one loop model covers both.

The `fuel` argument bounds the number of loop iterations; since every
iteration consumes at least one byte (or stops), `fuel := S` is enough for a
file of `S` bytes, which is how the model entry points instantiate it.
The returned list holds the successive `progress` values passed to
`callback(progress, length)`.
-/

def copyChunkLoop (length : Nat) : Nat → Nat → Nat → List Nat
  | 0, _, _ => []
  | fuel + 1, remaining, progress =>
    let n := min length remaining
    if n = 0 then []
    else (progress + n) :: copyChunkLoop length fuel (remaining - n) (progress + n)

/-!
## `_copyfile` (filesystem/_copying.py, lines 127-166)

    file_size = os.stat(src_file).st_size
    def _callback_wrapper(chunk, chunk_size):
        if callback: callback(chunk, chunk_size, file_size)
    if is_windows and file_size > 0:
        _copyfileobj_readinto(fsrc, fdst, callback=_callback_wrapper,
                              length=min(file_size, chunk_size))
        return target_file
    _copyfileobj(fsrc, fdst, callback=_callback_wrapper, length=chunk_size)

So the callback receives `(progress, length, file_size)` triples, with
`length = min file_size chunk_size` on the Windows branch (taken only when
`file_size > 0`) and `length = chunk_size` otherwise.
-/

/-- Trace of `(progress, length)` pairs produced by `_copyfileobj` /
`_copyfileobj_readinto` on a source holding `S` bytes with read length `L`. -/
def copyfileobjTrace (S L : Nat) : List (Nat × Nat) :=
  (copyChunkLoop L S S 0).map (fun p => (p, L))

/-- Trace of `(chunk, chunk_size, total)` triples `_copyfile` feeds to its
caller's callback for a source of `S` bytes and chunk size `C`. -/
def copyfileCallbackTrace (isWindows : Bool) (S C : Nat) : List (Nat × Nat × Nat) :=
  if isWindows = true ∧ 0 < S then
    (copyfileobjTrace S (min S C)).map (fun t => (t.1, t.2, S))
  else
    (copyfileobjTrace S C).map (fun t => (t.1, t.2, S))

/-!
## `os.stat` results and `_hash_file` (filesystem/_copying.py, lines 169-183)

    stats = os.stat(src_file)
    identifier = str(src_file) + repr(stats)
    return hashlib.sha256(bytes(identifier, "utf-8")).hexdigest()

`repr(os.stat_result)` renders *ten* fields (mode, inode, device, nlink,
uid, gid, size, and the truncated-to-seconds access/modification/creation
times), so the digested identifier depends on all of them, not only on the
path, size and mtime.
-/

structure StatResult where
  st_mode : Nat
  st_ino : Nat
  st_dev : Nat
  st_nlink : Nat
  st_uid : Nat
  st_gid : Nat
  st_size : Nat
  st_atime : Nat
  st_mtime : Nat
  st_ctime : Nat
deriving DecidableEq, Repr

/-- `repr(os.stat_result(...))` as Python prints it. -/
def reprStat (s : StatResult) : String :=
  "os.stat_result(st_mode=" ++ toString s.st_mode ++
  ", st_ino=" ++ toString s.st_ino ++
  ", st_dev=" ++ toString s.st_dev ++
  ", st_nlink=" ++ toString s.st_nlink ++
  ", st_uid=" ++ toString s.st_uid ++
  ", st_gid=" ++ toString s.st_gid ++
  ", st_size=" ++ toString s.st_size ++
  ", st_atime=" ++ toString s.st_atime ++
  ", st_mtime=" ++ toString s.st_mtime ++
  ", st_ctime=" ++ toString s.st_ctime ++ ")"

/-- The string `_hash_file` digests: `str(src_file) + repr(stats)`.
(`_hash_file` itself is `hashStr` applied to this.) -/
def hashFileId (srcPath : String) (stats : StatResult) : String :=
  srcPath ++ reprStat stats

/-!
## `FilesCache` (caching.py)

On-disk layout: `<root>/<cache-name>/<digest-prefix><random-suffix>/<file>`.
The model keeps the directory part below the cache root:

* `rootExists`  — whether `self._path` exists (`self.exists`);
* `entries`     — the subdirectories of the cache root, in the order
  `pathlib.Path.glob` enumerates them (the source's glob order comes from
  `os.scandir` and is filesystem-defined; the model fixes it as list order,
  with `cache_file` appending its fresh `mkdtemp` directory).

A cached file is a name plus its byte content (`shutil.copy2` copies the
bytes and keeps the file name).
-/

structure FileRec where
  name : String
  content : List Nat
deriving DecidableEq, Repr

structure CacheEntry where
  dirName : String
  files : List FileRec
deriving DecidableEq, Repr

structure CacheFS where
  rootExists : Bool
  entries : List CacheEntry
deriving DecidableEq, Repr

/-- `path.glob(f"{pat}*")` matches `name` iff `pat` is a string prefix of
`name`; strings are compared as their character lists. -/
def globMatch (pat name : String) : Bool :=
  pat.data.isPrefixOf name.data

/-- Result of `FilesCache.get_file_cache`: the returned optional file, plus
whether the multiple-match warning was logged. -/
structure LookupOutcome where
  result : Option FileRec
  warned : Bool
deriving DecidableEq, Repr

/-- `FilesCache.get_file_cache` (caching.py, lines 92-125):

    if not self.exists: return None
    cache_prefix = _hash_str(unique_id)
    tempfolder = list(self._path.glob(f"{cache_prefix}*"))
    if len(tempfolder) > 1: LOGGER.warning(...)
    tempfolder = tempfolder[0] if tempfolder else None
    if not tempfolder: return None
    cache_file = list(tempfolder.glob("*"))
    if not cache_file: return None
    return cache_file[0]

`hashStr` stands for `_hash_str` (sha256 hexdigest of the identifier). -/
def FilesCache.get_file_cache (hashStr : String → String) (fs : CacheFS)
    (unique_id : String) : LookupOutcome :=
  if !fs.rootExists then { result := none, warned := false }
  else
    let cacheDigest := hashStr unique_id
    let tempfolder := fs.entries.filter (fun e => globMatch cacheDigest e.dirName)
    let warned := decide (tempfolder.length > 1)
    match tempfolder with
    | [] => { result := none, warned := warned }
    | e :: _ =>
      match e.files with
      | [] => { result := none, warned := warned }
      | f :: _ => { result := some f, warned := warned }

/-- `FilesCache.cache_file` (caching.py, lines 50-81):

    if not self.exists: self._path.mkdir()
    cache_prefix = _hash_str(unique_id)
    temp_folder = Path(tempfile.mkdtemp(prefix=cache_prefix, dir=self._path))
    shutil.copy2(file_path, temp_folder)
    cache_file = temp_folder / file_path.name
    if not cache_file.exists(): raise RuntimeError(...)
    return cache_file

`mkdtempSuffix` is the random suffix `tempfile.mkdtemp` appends to the
digest prefix; the fresh directory is appended to the root's entries, and
`shutil.copy2` places a byte-identical copy of the file (same name) inside
it.  The defensive `RuntimeError` branch cannot fire in the model: the file
just copied into the fresh directory is present.  Returns the post-state
and the cached file. -/
def FilesCache.cache_file (hashStr : String → String) (fs : CacheFS)
    (file_path : FileRec) (unique_id : String) (mkdtempSuffix : String) :
    CacheFS × FileRec :=
  let cacheDigest := hashStr unique_id
  let temp_folder : CacheEntry :=
    { dirName := cacheDigest ++ mkdtempSuffix, files := [file_path] }
  ({ rootExists := true, entries := fs.entries ++ [temp_folder] }, file_path)

/-!
## `copyfile` (filesystem/_copying.py, lines 186-272)

    new_callback = callback
    if use_cache:
        cache_hash = _hash_file(src_file)
        cache_file = _COPYING_CACHE.get_file_cache(unique_id=cache_hash)
        if cache_file:
            src_file = cache_file
        else:
            ...
            src_file = _COPYING_CACHE.cache_file(
                src_file, unique_id=cache_hash, copy_function=_copy_function)
            ...
            new_callback = _second_callback
    if target_path.is_dir():
        target_path = target_path / src_file.name
    if target_path.exists():
        raise FileExistsError(f"target {target_path} already exists")
    _copyfile(src_file, target_path, callback=new_callback, chunk_size=chunk_size)
    shutil.copystat(src_file, target_path)
    return target_path

The cache-miss branch calls `FilesCache.cache_file` with a keyword argument
`copy_function` that `cache_file(self, file_path, unique_id)` does not
accept (caching.py, line 50), so in Python the call itself raises
`TypeError` before the body of `cache_file` runs: no cache write, no
destination check, no callback and no byte transfer happen on a miss.
`cacheFileParams` / `copyfileCacheFileKwargs` record the two keyword sets;
`kwargsAccepted` is Python's keyword-binding check.
-/

/-- Keyword parameters `FilesCache.cache_file` accepts (caching.py, line 50). -/
def cacheFileParams : List String := ["file_path", "unique_id"]

/-- Keyword arguments `copyfile` passes at its `cache_file` call site
(filesystem/_copying.py, lines 252-256; `src_file` is passed positionally). -/
def copyfileCacheFileKwargs : List String := ["unique_id", "copy_function"]

/-- A Python call binds without `TypeError` iff every keyword argument names
an accepted parameter. -/
def kwargsAccepted (params kwargs : List String) : Bool :=
  kwargs.all (fun k => params.contains k)

/-- The message of the `TypeError` raised by the mismatched call. -/
def cacheFileTypeErrorMsg : String :=
  "cache_file() got an unexpected keyword argument: copy_function"

/-- Environment a `copyfile` call runs in.  `envDisable` records whether the
cache-disabling environment variable is set in the process environment;
`copyfile` itself never reads any environment variable, so the model keeps
the field but the function ignores it.  `resolvedExists` is whether the
resolved destination path (after appending the file name when
`targetIsDir`) already exists. -/
structure CopyEnv where
  srcPath : String
  srcName : String
  srcStat : StatResult
  envDisable : Bool
  cache : CacheFS
  targetIsDir : Bool
  targetPath : String
  resolvedExists : Bool
deriving DecidableEq, Repr

/-- Observable outcome of a `copyfile` call: the callback trace, the return
value or raised exception, bytes written to the destination, bytes written
into the cache, and whether a cache lookup was performed. -/
structure CopyOutcome where
  trace : List (Nat × Nat × Nat)
  result : PyResult
  destBytes : Nat
  cacheBytes : Nat
  lookupDone : Bool
deriving DecidableEq, Repr

/-- `target_path = target_path / src_file.name if target_path.is_dir()`. -/
def resolveTarget (targetIsDir : Bool) (targetPath name : String) : String :=
  if targetIsDir then targetPath ++ "/" ++ name else targetPath

/-- The destination-resolution, existence-check and `_copyfile` tail of
`copyfile` (lines 264-272), shared by the no-cache and cache-hit paths.
`srcName`/`fileSize` describe the (possibly cache-swapped) source file.
`shutil.copystat` only transfers metadata, which the model does not track. -/
def copyfileFinish (env : CopyEnv) (srcName : String) (fileSize chunk_size : Nat)
    (isWindows lookupDone : Bool) : CopyOutcome :=
  let target := resolveTarget env.targetIsDir env.targetPath srcName
  if env.resolvedExists then
    { trace := []
      result := .raised (.fileExistsError ("target " ++ target ++ " already exists"))
      destBytes := 0
      cacheBytes := 0
      lookupDone := lookupDone }
  else
    { trace := copyfileCallbackTrace isWindows fileSize chunk_size
      result := .done target
      destBytes := fileSize
      cacheBytes := 0
      lookupDone := lookupDone }

/-- `copyfile` (filesystem/_copying.py, lines 186-272).  `hashStr` models the
sha256 hexdigest used both by `_hash_file` and by `FilesCache._hash_str`;
`isWindows` is `os.name == "nt"`. -/
def copyfile (hashStr : String → String) (env : CopyEnv) (use_cache : Bool)
    (chunk_size : Nat) (isWindows : Bool) : CopyOutcome :=
  if use_cache then
    let cache_hash := hashStr (hashFileId env.srcPath env.srcStat)
    match (FilesCache.get_file_cache hashStr env.cache cache_hash).result with
    | some f =>
      -- cache hit: `src_file = cache_file`, callback kept unchanged
      copyfileFinish env f.name f.content.length chunk_size isWindows true
    | none =>
      -- cache miss: the `cache_file(..., copy_function=...)` call raises
      -- `TypeError` (see `cacheFileCall_rejected`) before anything runs
      { trace := []
        result := .raised (.typeError cacheFileTypeErrorMsg)
        destBytes := 0
        cacheBytes := 0
        lookupDone := true }
  else
    copyfileFinish env env.srcName env.srcStat.st_size chunk_size isWindows false

/-!
## `download_file` (web/download.py, lines 119-190)

    if os.getenv(_DISABLE_CACHE_ENV_VAR): use_cache = False
    if use_cache:
        cache_file = _DOWNLOAD_CACHE.get_file_cache(unique_id=url)
        if cache_file:
            shutil.copy2(cache_file, target_file)
            return
    ...
    blocksize = 1024 * 8
    blocknum = 0
    size = -1
    if "content-length" in headers: size = int(headers["Content-Length"])
    if step_callback: step_callback(blocknum, blocksize, size)
    while True:
        buf = url_stream.read(blocksize)
        if not buf: break
        file.write(buf)
        blocknum += 1
        if step_callback: step_callback(blocknum, blocksize, size)
    if use_cache:
        cache_file = _DOWNLOAD_CACHE.cache_file(target_file, unique_id=url)

Notes: there is no check whatsoever on whether `target_file` already exists
(`open(target_file, "wb")` truncates, `shutil.copy2` overwrites), and the
step callback counts *blocks*, starting with an initial `(0, blocksize,
size)` tick before any data is read.
-/

/-- Environment of a `download_file` call.  `envDisable` is whether
`PYTHONNING_DISABLE_DOWNLOAD_CACHE` is set; `content` is the byte stream the
url serves; `contentLength` the optional Content-Length header;
`targetExists` whether `target_file` already exists (never consulted by the
code). -/
structure DlEnv where
  envDisable : Bool
  cache : CacheFS
  url : String
  content : List Nat
  contentLength : Option Nat
  targetName : String
  targetExists : Bool
deriving DecidableEq, Repr

/-- Observable outcome of `download_file`: the `(blocknum, blocksize, size)`
step-callback trace, the bytes ending up in `target_file`, the download
cache afterwards, and the exception raised for an existing target (always
`none`: the source never checks). -/
structure DlOutcome where
  trace : List (Nat × Nat × Int)
  destContent : List Nat
  cacheAfter : CacheFS
  raised : Option PyErr
deriving DecidableEq, Repr

/-- `size = int(headers["Content-Length"])` if present else `-1`. -/
def dlSizeHeader (h : Option Nat) : Int :=
  match h with
  | some n => (n : Int)
  | none => -1

/-- The download read loop: one `(blocknum, blocksize, size)` callback per
non-empty `read(blocksize)`, with `blocknum` counting blocks.  `fuel` bounds
iterations exactly as in `copyChunkLoop`. -/
def dlLoop (blocksize : Nat) : Nat → Nat → Nat → Int → List (Nat × Nat × Int)
  | 0, _, _, _ => []
  | fuel + 1, remaining, blocknum, size =>
    let n := min blocksize remaining
    if n = 0 then []
    else (blocknum + 1, blocksize, size) ::
      dlLoop blocksize fuel (remaining - n) (blocknum + 1) size

/-- The network-fetch tail of `download_file` (lines 156-190): initial
callback tick, read loop, then a cache store when `use_cache` is still
true. -/
def downloadFetch (hashStr : String → String) (env : DlEnv) (use_cache : Bool)
    (mkdtempSuffix : String) : DlOutcome :=
  let blocksize := 1024 * 8
  let size := dlSizeHeader env.contentLength
  let S := env.content.length
  { trace := (0, blocksize, size) :: dlLoop blocksize S S 0 size
    destContent := env.content
    cacheAfter :=
      if use_cache then
        (FilesCache.cache_file hashStr env.cache
          { name := env.targetName, content := env.content } env.url mkdtempSuffix).1
      else env.cache
    raised := none }

/-- `download_file` (web/download.py, lines 119-190). -/
def download_file (hashStr : String → String) (env : DlEnv) (use_cache : Bool)
    (mkdtempSuffix : String) : DlOutcome :=
  let uc := if env.envDisable then false else use_cache
  if uc then
    match (FilesCache.get_file_cache hashStr env.cache env.url).result with
    | some f =>
      -- cache hit: shutil.copy2(cache_file, target_file); no step callback
      { trace := [], destContent := f.content, cacheAfter := env.cache, raised := none }
    | none => downloadFetch hashStr env true mkdtempSuffix
  else downloadFetch hashStr env false mkdtempSuffix

/-!
## `FilesCache.clear` (caching.py, lines 83-90) and the on-disk cache tree

    def clear(self):
        if not self.exists: return
        shutil.rmtree(self._path)

`shutil.rmtree` is called *without* an `onerror` handler, so the first
`PermissionError` raised while unlinking a file or removing a directory
propagates and aborts the deletion.  (The permission-tolerant deleter of
this repository, `filesystem/_removing.py:rmtree`, installs such a handler
— but `clear` does not use it.)

The cache tree has the documented fixed shape
`<cache-root>/<entry-dir>/<file>`; a `locked` flag on a node means the
`os.unlink`/`os.rmdir` removing it raises `PermissionError`.
-/

structure DiskFile where
  name : String
  locked : Bool
deriving DecidableEq, Repr

structure DiskDir where
  name : String
  locked : Bool
  files : List DiskFile
deriving DecidableEq, Repr

/-- The cache root directory: its own permission flag and its entry
subdirectories. -/
structure DiskRoot where
  locked : Bool
  entryDirs : List DiskDir
deriving DecidableEq, Repr

/-- Unlink each file of an entry directory in order; first locked file
raises `PermissionError`. -/
def rmFiles : List DiskFile → Except PyErr Unit
  | [] => .ok ()
  | f :: fs => if f.locked then .error .permissionError else rmFiles fs

/-- Delete one entry directory: its files, then `os.rmdir` on it. -/
def rmEntryDir (d : DiskDir) : Except PyErr Unit :=
  match rmFiles d.files with
  | .error e => .error e
  | .ok _ => if d.locked then .error .permissionError else .ok ()

def rmEntryDirs : List DiskDir → Except PyErr Unit
  | [] => .ok ()
  | d :: ds =>
    match rmEntryDir d with
    | .error e => .error e
    | .ok _ => rmEntryDirs ds

/-- `shutil.rmtree(self._path)` on the cache tree, default handlers: the
first `PermissionError` aborts the walk. -/
def shutilRmtreeCache (r : DiskRoot) : Except PyErr Unit :=
  match rmEntryDirs r.entryDirs with
  | .error e => .error e
  | .ok _ => if r.locked then .error .permissionError else .ok ()

/-- `FilesCache.clear`: no-op when the cache root does not exist (`none`),
otherwise `shutil.rmtree` of the root. -/
def FilesCache.clear (root : Option DiskRoot) : Except PyErr Unit :=
  match root with
  | none => .ok ()
  | some r => shutilRmtreeCache r

def fileListLocked (fs : List DiskFile) : Bool := fs.any (fun f => f.locked)

def entryDirLocked (d : DiskDir) : Bool := d.locked || fileListLocked d.files

def entryDirsLocked (ds : List DiskDir) : Bool := ds.any entryDirLocked

/-- Whether any node of the cache tree is permission-locked. -/
def rootLocked (r : DiskRoot) : Bool := r.locked || entryDirsLocked r.entryDirs

/-!
## Concrete instances used by closed statements

`digestStub` instantiates the abstract sha256 hexdigest in closed
statements; it is injective, like a collision-free digest.
-/

def digestStub : String → String := fun s => "sha256:" ++ s

/-- A 1,685,626-byte source file for the Scenario C instance. -/
def envC1 : CopyEnv :=
  { srcPath := "/net/share/render.jpg"
    srcName := "render.jpg"
    srcStat := { st_mode := 33188, st_ino := 7876932, st_dev := 64768,
                 st_nlink := 1, st_uid := 1000, st_gid := 1000,
                 st_size := 1685626, st_atime := 1700000000,
                 st_mtime := 1690000000, st_ctime := 1690000001 }
    envDisable := false
    cache := { rootExists := false, entries := [] }
    targetIsDir := false
    targetPath := "/dst/render-copy.jpg"
    resolvedExists := false }

/-- A `use_cache=true` call on an empty (absent) cache: a cache miss. -/
def envC2 : CopyEnv :=
  { srcPath := "/net/share/render.jpg"
    srcName := "render.jpg"
    srcStat := { st_mode := 33188, st_ino := 7876932, st_dev := 64768,
                 st_nlink := 1, st_uid := 1000, st_gid := 1000,
                 st_size := 1685626, st_atime := 1700000000,
                 st_mtime := 1690000000, st_ctime := 1690000001 }
    envDisable := false
    cache := { rootExists := false, entries := [] }
    targetIsDir := false
    targetPath := "/dst/render-copy1.jpg"
    resolvedExists := false }

def fsC3 : CacheFS := { rootExists := false, entries := [] }

def fileC3 : FileRec := { name := "render.jpg", content := [10, 20, 30, 40] }

/-- A cache miss (`rootExists = false`) whose resolved destination already
exists. -/
def envC4 : CopyEnv :=
  { srcPath := "/net/share/render.jpg"
    srcName := "render.jpg"
    srcStat := { st_mode := 33188, st_ino := 7876932, st_dev := 64768,
                 st_nlink := 1, st_uid := 1000, st_gid := 1000,
                 st_size := 3, st_atime := 1700000000,
                 st_mtime := 1690000000, st_ctime := 1690000001 }
    envDisable := false
    cache := { rootExists := false, entries := [] }
    targetIsDir := false
    targetPath := "/dst/render-copy1.jpg"
    resolvedExists := true }

/-- A cache whose root holds two entry directories matching the digest of
`"u5"` under `digestStub`. -/
def fsC5 : CacheFS :=
  { rootExists := true
    entries := [ { dirName := "sha256:u5AA"
                   files := [{ name := "a.bin", content := [1] }] },
                 { dirName := "sha256:u5BB", files := [] } ] }

def dlEnvC6 : DlEnv :=
  { envDisable := false
    cache := { rootExists := false, entries := [] }
    url := "http://x/empty.bin"
    content := []
    contentLength := some 0
    targetName := "empty.bin"
    targetExists := false }

def statC7A : StatResult :=
  { st_mode := 33188, st_ino := 7876932, st_dev := 64768, st_nlink := 1,
    st_uid := 1000, st_gid := 1000, st_size := 1685626,
    st_atime := 1700000000, st_mtime := 1690000000, st_ctime := 1690000001 }

/-- Same path, size and mtime as `statC7A`; only the access time differs
(as it does after the file has been read once). -/
def statC7B : StatResult :=
  { st_mode := 33188, st_ino := 7876932, st_dev := 64768, st_nlink := 1,
    st_uid := 1000, st_gid := 1000, st_size := 1685626,
    st_atime := 1700000050, st_mtime := 1690000000, st_ctime := 1690000001 }

def fileC7 : FileRec := { name := "r.jpg", content := [7, 7, 7] }

/-- A cache already holding an entry for the digest `copyfile` computes for
`("/n/r.jpg", statC7A)` under `digestStub` (the digest is applied twice:
once by `_hash_file`, once by `_hash_str` inside the lookup). -/
def envC7 : CopyEnv :=
  { srcPath := "/n/r.jpg"
    srcName := "r.jpg"
    srcStat := statC7A
    envDisable := false
    cache := { rootExists := true
               entries := [ { dirName :=
                                digestStub (digestStub (hashFileId "/n/r.jpg" statC7A))
                                  ++ "XY"
                              files := [fileC7] } ] }
    targetIsDir := false
    targetPath := "/d/r2.jpg"
    resolvedExists := false }

/-- A cache tree holding one entry directory with one permission-locked
file. -/
def rootC8 : DiskRoot :=
  { locked := false
    entryDirs := [ { name := "sha256:hXY", locked := false
                     files := [{ name := "render.jpg", locked := true }] } ] }

/-- A fully unlocked cache tree. -/
def rootC8ok : DiskRoot :=
  { locked := false
    entryDirs := [ { name := "sha256:hZZ", locked := false
                     files := [{ name := "other.jpg", locked := false }] } ] }

/-- The cache-disabling environment variable is set, `use_cache=true`, and
the copy cache is absent (a miss). -/
def envC9 : CopyEnv :=
  { srcPath := "/n/a.bin"
    srcName := "a.bin"
    srcStat := { st_mode := 33188, st_ino := 11, st_dev := 12, st_nlink := 1,
                 st_uid := 1000, st_gid := 1000, st_size := 3,
                 st_atime := 1700000000, st_mtime := 1690000000,
                 st_ctime := 1690000001 }
    envDisable := true
    cache := { rootExists := false, entries := [] }
    targetIsDir := false
    targetPath := "/d/out.bin"
    resolvedExists := false }

def dlEnvC9 : DlEnv :=
  { envDisable := true
    cache := { rootExists := false, entries := [] }
    url := "http://x/y.zip"
    content := [1, 2]
    contentLength := some 2
    targetName := "y.zip"
    targetExists := false }

def fileC10 : FileRec := { name := "y.zip", content := [1, 2, 3, 4] }

/-- A download cache holding the url `"http://x/y.zip"`, with the target
file already existing on disk. -/
def dlEnvC10 : DlEnv :=
  { envDisable := false
    cache := { rootExists := true
               entries := [ { dirName := "sha256:http://x/y.zipAB"
                              files := [fileC10] } ] }
    url := "http://x/y.zip"
    content := [9, 9, 9]
    contentLength := some 3
    targetName := "y.zip"
    targetExists := true }
theorem copyChunkLoop_zero (L fuel p : Nat) : copyChunkLoop L fuel 0 p = [] := by
  cases fuel <;> simp [copyChunkLoop]

/-- Closed form of the copy loop: for a positive chunk length and enough fuel,
the reported cumulative byte counts are
`progress + min ((i+1)*L) remaining` for `i < ⌈remaining / L⌉`. -/
theorem copyChunkLoop_closed (L : Nat) (hL : 0 < L) :
    ∀ fuel remaining progress, remaining ≤ fuel →
      copyChunkLoop L fuel remaining progress =
        (List.range ((remaining + L - 1) / L)).map
          (fun i => progress + min ((i + 1) * L) remaining) := by
  intro fuel
  induction fuel with
  | zero =>
    intro r p hr
    have hr0 : r = 0 := Nat.le_zero.mp hr
    subst hr0
    have hd : (L - 1) / L = 0 := Nat.div_eq_of_lt (by omega)
    simp [copyChunkLoop, hd]
  | succ fuel ih =>
    intro r p hr
    by_cases hr0 : r = 0
    · subst hr0
      have hd : (L - 1) / L = 0 := Nat.div_eq_of_lt (by omega)
      simp [copyChunkLoop, hd]
    · have hrpos : 0 < r := Nat.pos_of_ne_zero hr0
      have hn : ¬ (min L r = 0) := by omega
      rw [copyChunkLoop]
      simp only [hn, if_false]
      by_cases hLr : L ≤ r
      · have hmin : min L r = L := min_eq_left hLr
        have hceil : (r + L - 1) / L = ((r - L) + L - 1) / L + 1 := by
          have h1 : r + L - 1 = ((r - L) + L - 1) + L := by omega
          rw [h1, Nat.add_div_right _ hL]
        rw [hmin, hceil, List.range_succ_eq_map, List.map_cons, List.map_map]
        have htail := ih (r - L) (p + L) (by omega)
        rw [htail]
        congr 1
        · omega
        · apply List.map_congr_left
          intro i _
          simp only [Function.comp]
          have e1 : (Nat.succ i + 1) * L = (i + 1) * L + L := by
            rw [Nat.succ_eq_add_one, Nat.add_mul, one_mul]
          rw [e1]
          omega
      · have hrL : r < L := Nat.lt_of_not_le hLr
        have hmin : min L r = r := min_eq_right (Nat.le_of_lt hrL)
        have hceil : (r + L - 1) / L = 1 := by
          have h1 : r + L - 1 = (r - 1) + L := by omega
          rw [h1, Nat.add_div_right _ hL, Nat.div_eq_of_lt (by omega)]
        rw [hmin, hceil]
        have h0 : r - r = 0 := by omega
        rw [h0, copyChunkLoop_zero]
        have hr1 : List.range 1 = [0] := rfl
        rw [hr1]
        simp only [List.map_cons, List.map_nil]
        have : min (1 * L) r = r := by
          rw [one_mul]; exact min_eq_right (Nat.le_of_lt hrL)
        rw [this]

/-- `⌈S/C⌉ * C` bounds `S` from above. -/
theorem ceil_mul_ge (S C : Nat) (hC : 0 < C) : S ≤ ((S + C - 1) / C) * C := by
  have h1 := Nat.div_add_mod (S + C - 1) C
  have h2 : (S + C - 1) % C < C := Nat.mod_lt _ hC
  have h3 : C * ((S + C - 1) / C) = ((S + C - 1) / C) * C := Nat.mul_comm _ _
  omega

/-- The cumulative byte counts reported by `_copyfile` are
`min ((i+1)*C) S` for `i < ⌈S/C⌉`, on both platform branches. -/
theorem copyfileCallbackTrace_fst (iw : Bool) (S C : Nat) (hC : 0 < C) :
    (copyfileCallbackTrace iw S C).map (fun t => t.1) =
      (List.range ((S + C - 1) / C)).map (fun i => min ((i + 1) * C) S) := by
  unfold copyfileCallbackTrace copyfileobjTrace
  by_cases hw : iw = true ∧ 0 < S
  · rw [if_pos hw]
    obtain ⟨-, hS⟩ := hw
    by_cases hCS : C ≤ S
    · have hmin : min S C = C := min_eq_right hCS
      rw [hmin, copyChunkLoop_closed C hC S S 0 le_rfl]
      simp [List.map_map, Function.comp]
    · have hSC : S < C := Nat.lt_of_not_le hCS
      have hmin : min S C = S := min_eq_left (Nat.le_of_lt hSC)
      rw [hmin, copyChunkLoop_closed S hS S S 0 le_rfl]
      have h1 : (S + S - 1) / S = 1 := by
        have e : S + S - 1 = (S - 1) + S := by omega
        rw [e, Nat.add_div_right _ hS, Nat.div_eq_of_lt (by omega)]
      have h2 : (S + C - 1) / C = 1 := by
        have e : S + C - 1 = (S - 1) + C := by omega
        rw [e, Nat.add_div_right _ hC, Nat.div_eq_of_lt (by omega)]
      rw [h1, h2]
      simp only [List.map_map]
      apply List.map_congr_left
      intro i hi
      have hi0 : i = 0 := by
        have := List.mem_range.mp hi
        omega
      subst hi0
      simp only [Function.comp_apply]
      omega
  · rw [if_neg hw]
    rw [copyChunkLoop_closed C hC S S 0 le_rfl]
    simp [List.map_map, Function.comp]

/-- The number of callback invocations performed by `_copyfile` is
`⌈S/C⌉ = (S + C - 1) / C`. -/
theorem copyfileCallbackTrace_length (iw : Bool) (S C : Nat) (hC : 0 < C) :
    (copyfileCallbackTrace iw S C).length = (S + C - 1) / C := by
  have h := congrArg List.length (copyfileCallbackTrace_fst iw S C hC)
  simpa using h

/-- The last cumulative value reported by `_copyfile` is the file size `S`
(and for an empty file the trace is empty and the default `0 = S` applies). -/
theorem copyfileCallbackTrace_last (iw : Bool) (S C : Nat) (hC : 0 < C) :
    ((copyfileCallbackTrace iw S C).map (fun t => t.1)).getLastD 0 = S := by
  rw [copyfileCallbackTrace_fst iw S C hC]
  by_cases hS : S = 0
  · subst hS
    have hd : (C - 1) / C = 0 := Nat.div_eq_of_lt (by omega)
    simp [hd]
  · have hS1 : 1 ≤ S := Nat.pos_of_ne_zero hS
    have hk : ∃ m, (S + C - 1) / C = m + 1 := by
      have hkpos : 0 < (S + C - 1) / C := Nat.div_pos (by omega) hC
      exact ⟨(S + C - 1) / C - 1, by omega⟩
    obtain ⟨m, hm⟩ := hk
    rw [hm, List.range_succ, List.map_append]
    simp only [List.map_cons, List.map_nil, List.getLastD_concat]
    have hge : S ≤ ((S + C - 1) / C) * C := ceil_mul_ge S C hC
    rw [hm] at hge
    omega

theorem globMatch_append (pat sfx : String) : globMatch pat (pat ++ sfx) = true := by
  unfold globMatch
  rw [String.data_append]
  exact List.isPrefixOf_iff_prefix.mpr (List.prefix_append _ _)

theorem cacheFileCall_rejected :
    kwargsAccepted cacheFileParams copyfileCacheFileKwargs = false := rfl

theorem rmFiles_eq (fs : List DiskFile) :
    rmFiles fs = (if fileListLocked fs then .error .permissionError else .ok ()) := by
  induction fs with
  | nil => simp [rmFiles, fileListLocked]
  | cons f fs ih =>
    by_cases hf : f.locked
    · simp [rmFiles, fileListLocked, hf]
    · simp [rmFiles, fileListLocked, hf] at ih ⊢
      exact ih

theorem rmEntryDir_eq (d : DiskDir) :
    rmEntryDir d = (if entryDirLocked d then .error .permissionError else .ok ()) := by
  unfold rmEntryDir entryDirLocked
  rw [rmFiles_eq]
  by_cases hfs : fileListLocked d.files
  · simp [hfs]
  · by_cases hd : d.locked <;> simp [hfs, hd]

theorem rmEntryDirs_eq (ds : List DiskDir) :
    rmEntryDirs ds =
      (if entryDirsLocked ds then .error .permissionError else .ok ()) := by
  induction ds with
  | nil => simp [rmEntryDirs, entryDirsLocked]
  | cons d ds ih =>
    unfold rmEntryDirs
    rw [rmEntryDir_eq]
    by_cases hd : entryDirLocked d
    · simp [entryDirsLocked, hd]
    · simp [entryDirsLocked, hd] at ih ⊢
      exact ih

theorem shutilRmtreeCache_eq (r : DiskRoot) :
    shutilRmtreeCache r =
      (if rootLocked r then .error .permissionError else .ok ()) := by
  unfold shutilRmtreeCache rootLocked
  rw [rmEntryDirs_eq]
  by_cases hds : entryDirsLocked r.entryDirs
  · simp [hds]
  · by_cases hr : r.locked <;> simp [hds, hr]

/-- C1: for every copy of a source file of size `S` with `use_cache=false`
and chunk size `C` (`0 < C`), `copyfile` invokes the progress callback
exactly `⌈S/C⌉` times — the `i`-th call reporting the cumulative byte count
`min ((i+1)*C) S` — and the final cumulative value equals `S`.  (The
280,000-chunk instance on a 1,685,626-byte file is the witness.) -/
theorem C1_copyfile_progress (hashStr : String → String) (env : CopyEnv)
    (C : Nat) (iw : Bool) (hC : 0 < C) (hT : env.resolvedExists = false) :
    (copyfile hashStr env false C iw).trace.length =
        (env.srcStat.st_size + C - 1) / C ∧
    (copyfile hashStr env false C iw).trace.map (fun t => t.1) =
        (List.range ((env.srcStat.st_size + C - 1) / C)).map
          (fun i => min ((i + 1) * C) env.srcStat.st_size) ∧
    ((copyfile hashStr env false C iw).trace.map (fun t => t.1)).getLastD 0 =
        env.srcStat.st_size := by
  have htr : (copyfile hashStr env false C iw).trace =
      copyfileCallbackTrace iw env.srcStat.st_size C := by
    simp [copyfile, copyfileFinish, hT]
  rw [htr]
  exact ⟨copyfileCallbackTrace_length iw _ C hC,
    copyfileCallbackTrace_fst iw _ C hC,
    copyfileCallbackTrace_last iw _ C hC⟩

theorem C1_copyfile_progress_witness :
    0 < 280000 ∧ envC1.resolvedExists = false ∧
    (copyfile digestStub envC1 false 280000 false).trace.length = 7 ∧
    ((copyfile digestStub envC1 false 280000 false).trace.map
        (fun t => t.1)).getLastD 0 = 1685626 := by
  have h := C1_copyfile_progress digestStub envC1 280000 false (by decide) rfl
  exact ⟨by decide, rfl, h.1.trans (by decide), h.2.2⟩

/-- C2: the claim states that a `use_cache=true` cache miss produces two
chunked copies with one seamless doubled progress stream (final cumulative
`2*S`, 14 callbacks for the Scenario D instance).  The code cannot do this:
`copyfile` calls `FilesCache.cache_file` with a `copy_function` keyword
argument that `cache_file(self, file_path, unique_id)` does not accept
(`cacheFileCall_rejected`), so every cache miss raises `TypeError` with no
callback ever invoked — contradicting the claim and the repository's own
`test_copyfile_cache`, which asserts `len(progress) == 7 * 2` on a miss.
This theorem evaluates the model at the failing input. -/
theorem C2_cache_miss_type_error :
    kwargsAccepted cacheFileParams copyfileCacheFileKwargs = false ∧
    copyfile digestStub envC2 true 280000 false =
      { trace := []
        result := .raised (.typeError cacheFileTypeErrorMsg)
        destBytes := 0
        cacheBytes := 0
        lookupDone := true } :=
  ⟨rfl, rfl⟩

/-- C3: storing a file `F` under identifier `U` (`cache_file`) and then
looking `U` up (`get_file_cache`), with no other entry matching the digest
of `U` (glob order over pre-existing same-digest entries is
filesystem-defined, so a fresh digest is the meaningful precondition),
returns a non-absent path to a file whose byte content and file name equal
`F`'s. -/
theorem C3_cache_roundtrip (hashStr : String → String) (fs : CacheFS)
    (f : FileRec) (uid sfx : String)
    (hfresh : fs.entries.filter
        (fun e => globMatch (hashStr uid) e.dirName) = []) :
    ∃ g : FileRec,
      (FilesCache.get_file_cache hashStr
          (FilesCache.cache_file hashStr fs f uid sfx).1 uid).result = some g ∧
      g.content = f.content ∧ g.name = f.name := by
  refine ⟨f, ?_, rfl, rfl⟩
  have hnew : globMatch (hashStr uid) ((hashStr uid) ++ sfx) = true :=
    globMatch_append _ _
  simp [FilesCache.get_file_cache, FilesCache.cache_file, List.filter_append,
    hfresh, hnew]

theorem C3_cache_roundtrip_witness :
    fsC3.entries.filter (fun e => globMatch (digestStub "u3") e.dirName) = [] ∧
    ∃ g : FileRec,
      (FilesCache.get_file_cache digestStub
          (FilesCache.cache_file digestStub fsC3 fileC3 "u3" "Rnd").1
          "u3").result = some g ∧
      g.content = fileC3.content ∧ g.name = fileC3.name :=
  ⟨rfl, C3_cache_roundtrip digestStub fsC3 fileC3 "u3" "Rnd" rfl⟩

/-- C4: the claim says a `copyfile` call whose resolved destination already
exists "fails with an already-exists error before any byte is written
anywhere, regardless of use_cache and of the cache's current state (hit,
miss, or absent)".  False on a cache miss: the destination-exists check
(lines 264-268) runs only after the cache phase, and on a miss the broken
`cache_file(..., copy_function=...)` call raises `TypeError` first, so no
`FileExistsError` is raised even though the destination exists. -/
theorem C4_counterexample :
    envC4.resolvedExists = true ∧
    (copyfile digestStub envC4 true 280000 false).result.isFileExistsRaised
      = false ∧
    (copyfile digestStub envC4 true 280000 false).result =
      .raised (.typeError cacheFileTypeErrorMsg) :=
  ⟨rfl, rfl, rfl⟩

/-- C4 (amended): a `copyfile` call whose resolved destination already
exists always fails with no byte written (to destination or cache) and no
callback; the error is `FileExistsError` when `use_cache=false` or on a
cache hit, but on a cache miss with `use_cache=true` the cache-store phase
is reached first, so the call instead fails with the `TypeError` from the
`cache_file` call site before the destination check runs. -/
theorem C4_amended (hashStr : String → String) (env : CopyEnv) (C : Nat)
    (iw uc : Bool) (hT : env.resolvedExists = true) :
    ((copyfile hashStr env uc C iw).trace = [] ∧
     (copyfile hashStr env uc C iw).destBytes = 0 ∧
     (copyfile hashStr env uc C iw).cacheBytes = 0 ∧
     (copyfile hashStr env uc C iw).result.isRaised = true) ∧
    (uc = false →
       (copyfile hashStr env uc C iw).result.isFileExistsRaised = true) ∧
    (∀ f : FileRec, uc = true →
       (FilesCache.get_file_cache hashStr env.cache
           (hashStr (hashFileId env.srcPath env.srcStat))).result = some f →
       (copyfile hashStr env uc C iw).result.isFileExistsRaised = true) ∧
    (uc = true →
       (FilesCache.get_file_cache hashStr env.cache
           (hashStr (hashFileId env.srcPath env.srcStat))).result = none →
       (copyfile hashStr env uc C iw).result =
         .raised (.typeError cacheFileTypeErrorMsg)) := by
  cases uc with
  | false =>
    refine ⟨⟨?_, ?_, ?_, ?_⟩, fun _ => ?_,
      fun f h _ => Bool.noConfusion h, fun h _ => Bool.noConfusion h⟩
    all_goals
      simp [copyfile, copyfileFinish, hT, PyResult.isRaised,
        PyResult.isFileExistsRaised]
  | true =>
    cases hlk : (FilesCache.get_file_cache hashStr env.cache
        (hashStr (hashFileId env.srcPath env.srcStat))).result with
    | some f0 =>
      refine ⟨⟨?_, ?_, ?_, ?_⟩, fun h => Bool.noConfusion h,
        fun f _ hl => ?_, fun _ hn => ?_⟩
      · simp [copyfile, hlk, copyfileFinish, hT]
      · simp [copyfile, hlk, copyfileFinish, hT]
      · simp [copyfile, hlk, copyfileFinish, hT]
      · simp [copyfile, hlk, copyfileFinish, hT, PyResult.isRaised]
      · simp [copyfile, hlk, copyfileFinish, hT, PyResult.isFileExistsRaised]
      · exact Option.noConfusion hn
    | none =>
      refine ⟨⟨?_, ?_, ?_, ?_⟩, fun h => Bool.noConfusion h,
        fun f _ hl => ?_, fun _ _ => ?_⟩
      · simp [copyfile, hlk]
      · simp [copyfile, hlk]
      · simp [copyfile, hlk]
      · simp [copyfile, hlk, PyResult.isRaised]
      · exact Option.noConfusion hl
      · simp [copyfile, hlk]

theorem C4_amended_witness :
    envC4.resolvedExists = true ∧
    (copyfile digestStub envC4 false 2 false).result.isFileExistsRaised
      = true ∧
    (copyfile digestStub envC4 false 2 false).destBytes = 0 :=
  ⟨rfl, (C4_amended digestStub envC4 2 false false rfl).2.1 rfl,
    (C4_amended digestStub envC4 2 false false rfl).1.2.1⟩

/-- C5: `get_file_cache` returns absent when the cache root does not exist;
with more than one entry directory matching the digest it logs a warning
and proceeds with the first match; a matched entry with no file inside
yields absent (not an error); otherwise the single file inside the first
match is returned. -/
theorem C5_get_file_cache (hashStr : String → String) (fs : CacheFS)
    (uid : String) :
    (fs.rootExists = false →
       (FilesCache.get_file_cache hashStr fs uid).result = none) ∧
    (fs.rootExists = true →
       1 < (fs.entries.filter
            (fun e => globMatch (hashStr uid) e.dirName)).length →
       (FilesCache.get_file_cache hashStr fs uid).warned = true) ∧
    (fs.rootExists = true → ∀ e rest,
       fs.entries.filter (fun e => globMatch (hashStr uid) e.dirName)
         = e :: rest →
       (FilesCache.get_file_cache hashStr fs uid).result =
         (match e.files with
          | [] => none
          | f :: _ => some f)) ∧
    (fs.rootExists = true →
       fs.entries.filter (fun e => globMatch (hashStr uid) e.dirName) = [] →
       (FilesCache.get_file_cache hashStr fs uid).result = none) := by
  refine ⟨?_, ?_, ?_, ?_⟩
  · intro h
    simp [FilesCache.get_file_cache, h]
  · intro h hlen
    unfold FilesCache.get_file_cache
    rw [h]
    cases htf : fs.entries.filter (fun e => globMatch (hashStr uid) e.dirName) with
    | nil => rw [htf] at hlen; simp at hlen
    | cons e rest =>
      rw [htf] at hlen
      simp at hlen
      cases hef : e.files <;> simp [htf, hef] <;> omega
  · intro h e rest htf
    unfold FilesCache.get_file_cache
    rw [h]
    cases hef : e.files <;> simp [htf, hef]
  · intro h htf
    unfold FilesCache.get_file_cache
    rw [h]
    simp [htf]

theorem C5_get_file_cache_witness :
    fsC5.rootExists = true ∧
    1 < (fsC5.entries.filter
        (fun e => globMatch (digestStub "u5") e.dirName)).length ∧
    (FilesCache.get_file_cache digestStub fsC5 "u5").warned = true ∧
    (FilesCache.get_file_cache digestStub fsC5 "u5").result =
      some { name := "a.bin", content := [1] } := by
  have h := C5_get_file_cache digestStub fsC5 "u5"
  refine ⟨rfl, by decide, h.2.1 rfl (by decide), ?_⟩
  have h3 := h.2.2.1 rfl
    { dirName := "sha256:u5AA", files := [{ name := "a.bin", content := [1] }] }
    [{ dirName := "sha256:u5BB", files := [] }] (by decide)
  simpa using h3

/-- C6: the claim says the chunked copy engine invokes the callback at
least once at the start with cumulative value 0, and that an empty source
yields exactly one callback with cumulative 0.  False for `_copyfileobj`:
an empty source produces zero invocations (the first read already returns
an empty buffer), so the trace is `[]`, not a single `0` tick. -/
theorem C6_counterexample :
    copyfileCallbackTrace false 0 (64 * 1024) = [] ∧
    (copyfileCallbackTrace false 0 (64 * 1024)).length ≠ 1 :=
  ⟨rfl, by decide⟩

/-- C6 (amended): the chunked copy loop of `_copyfileobj` /
`_copyfileobj_readinto` invokes the callback once per non-empty chunk read
and never with cumulative value 0 — an empty source invokes it zero times.
The initial tick before any data exists only in `download_file`, whose
step callback is first invoked with block number 0 before the read loop,
so an empty download yields exactly one callback. -/
theorem C6_amended :
    (∀ (iw : Bool) (S C : Nat), 0 < C →
       ((copyfileCallbackTrace iw S C = [] ↔ S = 0) ∧
        ∀ t ∈ copyfileCallbackTrace iw S C, 0 < t.1)) ∧
    (∀ (hashStr : String → String) (env : DlEnv) (sfx : String),
       env.content = [] →
       (download_file hashStr env false sfx).trace =
         [(0, 1024 * 8, dlSizeHeader env.contentLength)]) := by
  constructor
  · intro iw S C hC
    constructor
    · constructor
      · intro h
        have hlen := copyfileCallbackTrace_length iw S C hC
        rw [h] at hlen
        simp at hlen
        have := (Nat.div_eq_zero_iff hC).mp hlen.symm
        omega
      · intro h
        subst h
        simp [copyfileCallbackTrace, copyfileobjTrace, copyChunkLoop]
    · intro t ht
      have hmem : t.1 ∈ (copyfileCallbackTrace iw S C).map (fun t => t.1) :=
        List.mem_map_of_mem _ ht
      rw [copyfileCallbackTrace_fst iw S C hC] at hmem
      obtain ⟨i, hi, hv⟩ := List.mem_map.mp hmem
      have hiR := List.mem_range.mp hi
      have hS : 0 < S := by
        by_contra hS0
        have hS0' : S = 0 := by omega
        subst hS0'
        have : (0 + C - 1) / C = 0 := Nat.div_eq_of_lt (by omega)
        rw [this] at hiR
        omega
      have hmul : 0 < (i + 1) * C := Nat.mul_pos (by omega) hC
      omega
  · intro hashStr env sfx h
    have hlen : env.content.length = 0 := by rw [h]; rfl
    simp [download_file, downloadFetch, hlen, dlLoop]

theorem C6_amended_witness :
    (0:Nat) < 65536 ∧
    (copyfileCallbackTrace false 0 65536 = [] ↔ (0:Nat) = 0) ∧
    dlEnvC6.content = [] ∧
    (download_file digestStub dlEnvC6 false "R").trace =
      [(0, 1024 * 8, dlSizeHeader dlEnvC6.contentLength)] := by
  have h := C6_amended
  exact ⟨by decide, (h.1 false 0 65536 (by decide)).1, rfl,
    h.2 digestStub dlEnvC6 "R" rfl⟩

/-- C7: the claim says the string digested to address a cache entry
depends only on the source's path, size and mtime.  False: `_hash_file`
digests `str(src_file) + repr(os.stat(src_file))`, and the stat repr also
contains inode, device, uid, gid and — pointedly — the access time.  Two
stats agreeing on size and mtime but differing in atime give different
digested identifiers for the same path. -/
theorem C7_counterexample :
    statC7A.st_size = statC7B.st_size ∧
    statC7A.st_mtime = statC7B.st_mtime ∧
    hashFileId "/net/share/render.jpg" statC7A ≠
      hashFileId "/net/share/render.jpg" statC7B := by
  refine ⟨rfl, rfl, ?_⟩
  decide

/-- C7 (amended): the digested identifier is `path ++ repr(stat)` and so is
unchanged exactly when the path and the *full* stat signature (mode, inode,
device, nlink, uid, gid, size, atime, mtime, ctime) are unchanged; two
`use_cache=true` calls for a file whose full stat repr is unchanged compute
the same digest, and whenever the cache already holds an entry for that
digest the call is a hit: it copies the cached file to the destination in a
single pass with no progress doubling.  (Note the cache can only have been
populated externally: the `cache_file` signature mismatch of C2 prevents
`copyfile` itself from storing entries.) -/
theorem C7_amended :
    (∀ (p : String) (s s' : StatResult), reprStat s = reprStat s' →
       hashFileId p s = hashFileId p s') ∧
    (∀ (hashStr : String → String) (env : CopyEnv) (C : Nat) (iw : Bool)
       (f : FileRec),
       (FilesCache.get_file_cache hashStr env.cache
           (hashStr (hashFileId env.srcPath env.srcStat))).result = some f →
       env.resolvedExists = false →
       copyfile hashStr env true C iw =
         { trace := copyfileCallbackTrace iw f.content.length C
           result := .done (resolveTarget env.targetIsDir env.targetPath f.name)
           destBytes := f.content.length
           cacheBytes := 0
           lookupDone := true }) := by
  constructor
  · intro p s s' h
    unfold hashFileId
    rw [h]
  · intro hashStr env C iw f hlk hT
    simp [copyfile, hlk, copyfileFinish, hT]

theorem C7_amended_witness :
    (FilesCache.get_file_cache digestStub envC7.cache
        (digestStub (hashFileId envC7.srcPath envC7.srcStat))).result
      = some fileC7 ∧
    envC7.resolvedExists = false ∧
    copyfile digestStub envC7 true 2 false =
      { trace := copyfileCallbackTrace false fileC7.content.length 2
        result := .done (resolveTarget envC7.targetIsDir envC7.targetPath
          fileC7.name)
        destBytes := fileC7.content.length
        cacheBytes := 0
        lookupDone := true } := by
  have hlk : (FilesCache.get_file_cache digestStub envC7.cache
      (digestStub (hashFileId envC7.srcPath envC7.srcStat))).result
        = some fileC7 := by decide
  exact ⟨hlk, rfl, C7_amended.2 digestStub envC7 2 false fileC7 hlk rfl⟩

/-- C8: the claim says the cache clear operation tolerates
permission-denied entries during deletion (resetting permissions and
retrying) rather than aborting partway.  False: `FilesCache.clear` calls
`shutil.rmtree(self._path)` with no `onerror` handler, so the first locked
entry aborts the deletion with `PermissionError` — it does not delete the
tree. -/
theorem C8_counterexample :
    FilesCache.clear (some rootC8) = .error .permissionError ∧
    FilesCache.clear (some rootC8) ≠ .ok () :=
  ⟨rfl, fun h => nomatch h⟩

/-- C8 (amended): `FilesCache.clear` is a no-op when the cache root does
not exist, and otherwise recursively deletes the cache root with *no*
permission-denied recovery: it succeeds exactly when no entry is
permission-locked, and aborts with `PermissionError` on the first locked
entry.  (The permission-resetting retry logic described by the claim lives
in the separate `filesystem/_removing.py:rmtree` utility, which `clear`
does not use; `clear` also takes no ignore-errors option.) -/
theorem C8_clear_behavior :
    (FilesCache.clear none = .ok ()) ∧
    (∀ r : DiskRoot, rootLocked r = false →
       FilesCache.clear (some r) = .ok ()) ∧
    (∀ r : DiskRoot, rootLocked r = true →
       FilesCache.clear (some r) = .error .permissionError) := by
  refine ⟨rfl, ?_, ?_⟩
  · intro r h
    show shutilRmtreeCache r = Except.ok ()
    rw [shutilRmtreeCache_eq, h]
    simp
  · intro r h
    show shutilRmtreeCache r = Except.error PyErr.permissionError
    rw [shutilRmtreeCache_eq, h]
    simp

theorem C8_clear_behavior_witness :
    rootLocked rootC8ok = false ∧
    FilesCache.clear (some rootC8ok) = .ok () ∧
    rootLocked rootC8 = true ∧
    FilesCache.clear (some rootC8) = .error .permissionError := by
  have h := C8_clear_behavior
  exact ⟨rfl, h.2.1 rootC8ok rfl, rfl, h.2.2 rootC8 rfl⟩

/-- C9: the claim says a cache-disabling boolean environment variable
forces `use_cache=false` for every cache-using operation, including the
cached file copy.  False: only `download_file` reads
`PYTHONNING_DISABLE_DOWNLOAD_CACHE`; `copyfile` reads no environment
variable at all, so with the variable set a `use_cache=true` copy still
performs its cache lookup and behaves differently from `use_cache=false`
(here: the miss path raises `TypeError` while the plain copy succeeds). -/
theorem C9_counterexample :
    envC9.envDisable = true ∧
    copyfile digestStub envC9 true 2 false ≠
      copyfile digestStub envC9 false 2 false := by
  refine ⟨rfl, ?_⟩
  decide

/-- C9 (amended): the kill-switch exists only in `download_file`: when the
environment variable is set, `download_file` behaves exactly as if the
caller had passed `use_cache=false` (no lookup, no cache write), whereas
`copyfile`'s behaviour is entirely independent of the variable and follows
its `use_cache` argument. -/
theorem C9_amended :
    (∀ (hashStr : String → String) (env : DlEnv) (uc : Bool) (sfx : String),
       env.envDisable = true →
       download_file hashStr env uc sfx = download_file hashStr env false sfx) ∧
    (∀ (hashStr : String → String) (env : CopyEnv) (uc : Bool) (C : Nat)
       (iw b : Bool),
       copyfile hashStr { env with envDisable := b } uc C iw =
         copyfile hashStr env uc C iw) := by
  constructor
  · intro hashStr env uc sfx h
    simp [download_file, h]
  · intro hashStr env uc C iw b
    rfl

theorem C9_amended_witness :
    dlEnvC9.envDisable = true ∧
    download_file digestStub dlEnvC9 true "R" =
      download_file digestStub dlEnvC9 false "R" :=
  ⟨rfl, C9_amended.1 digestStub dlEnvC9 true "R" rfl⟩

/-- C10: a `download_file` call with `use_cache=true` whose url is in the
download cache copies the cached file to `target_file` with the step
callback never invoked, silently overwrites an already-existing
`target_file`, and — on every path — never consults whether the
destination exists (the outcome is invariant in `targetExists`, and no
exception is ever raised for it). -/
theorem C10_download_cache_hit (hashStr : String → String) (env : DlEnv)
    (sfx : String) (f : FileRec)
    (hEnv : env.envDisable = false)
    (hHit : (FilesCache.get_file_cache hashStr env.cache env.url).result
      = some f) :
    ((download_file hashStr env true sfx).trace = [] ∧
     (download_file hashStr env true sfx).destContent = f.content ∧
     (download_file hashStr env true sfx).cacheAfter = env.cache ∧
     (download_file hashStr env true sfx).raised = none) ∧
    (∀ uc b : Bool,
       download_file hashStr { env with targetExists := b } uc sfx =
         download_file hashStr env uc sfx) := by
  constructor
  · simp [download_file, hEnv, hHit]
  · intro uc b
    rfl

theorem C10_download_cache_hit_witness :
    dlEnvC10.envDisable = false ∧
    (FilesCache.get_file_cache digestStub dlEnvC10.cache dlEnvC10.url).result
      = some fileC10 ∧
    dlEnvC10.targetExists = true ∧
    (download_file digestStub dlEnvC10 true "AB").trace = [] ∧
    (download_file digestStub dlEnvC10 true "AB").destContent
      = fileC10.content := by
  have h := C10_download_cache_hit digestStub dlEnvC10 "AB" fileC10 rfl (by decide)
  exact ⟨rfl, by decide, rfl, h.1.1, h.1.2.1⟩
